import Mathlib

/-!
Shallow embedding of the `parallelscriptures` repository: `src/server.py`
(Flask routes, the user table, signed verification / reset tokens and the
TTL-guarded book-list cache) together with the path construction of
`src/tools/fetchBooksWebsite.py`.  Request-level state (database rows, the
in-memory cache, the session id the handler sets) is passed and returned
explicitly; upstream HTTP fetches appear as `Except`-valued parameters.
-/

namespace ParallelScriptures

/-- Python `str.lower` on one character, for the ASCII range this code base
manipulates (emails, slugs, language codes). -/
def pyLowerChar (c : Char) : Char :=
  if 'A' ≤ c ∧ c ≤ 'Z' then Char.ofNat (c.toNat + 32) else c

/-- Python `str.upper` on one character (used by `names.get(slug, slug.upper())`
in `_get_books_for_lang`). -/
def pyUpperChar (c : Char) : Char :=
  if 'a' ≤ c ∧ c ≤ 'z' then Char.ofNat (c.toNat - 32) else c

/-- Characters removed by Python `str.strip()` (ASCII whitespace). -/
def isPySpace (c : Char) : Bool :=
  c == ' ' || c == '\t' || c == '\n' || c == '\r' || c == '\x0b' || c == '\x0c'

/-- Python `str.strip()` on a character list: drop whitespace at both ends. -/
def stripList (l : List Char) : List Char :=
  ((l.dropWhile isPySpace).reverse.dropWhile isPySpace).reverse

/-- Python `s.lower()`. -/
def pyLower (s : String) : String := ⟨s.data.map pyLowerChar⟩

/-- Python `s.upper()`. -/
def pyUpper (s : String) : String := ⟨s.data.map pyUpperChar⟩

/-- Python `s.strip()`. -/
def pyStrip (s : String) : String := ⟨stripList s.data⟩

/-- Python `a or b` on an optional string: `None` and `""` are falsy, so both
fall through to `b` (as in `request.form.get("email") or ""`). -/
def pyOr (a : Option String) (b : String) : String :=
  match a with
  | none => b
  | some s => if s = "" then b else s

/-- Normalization applied to email form fields throughout `server.py`:
`(... or "").strip().lower()`. -/
def normEmailField (a : Option String) : String :=
  pyLower (pyStrip (pyOr a ""))

/-- Normalization of a language code at `server.py` line 385:
`request.args.get('lang', 'por').lower().strip()` applies only
`.lower().strip()` to the received string. -/
def langNormalize (s : String) : String :=
  pyStrip (pyLower s)

/-- Language code used by the `/api/books` handler: the `lang` query argument
defaulted to `"por"` and then normalized. -/
def apiBooksLang (langArg : Option String) : String :=
  langNormalize (langArg.getD "por")

/-- Filename built by `process_language` in `src/tools/fetchBooksWebsite.py`
(lines 119-120): `filename = f"LANG.json"` for the language code, with no
sanitization of the code. -/
def toolLangFilename (langCode : String) : String := langCode ++ ".json"

/-- Model of `os.path.join(dir, name)` for two components: an absolute second
component replaces the first, otherwise the two are joined with a slash. -/
def osPathJoin (dir name : String) : String :=
  if name.data.head? = some '/' then name
  else if dir.data.getLast? = some '/' then dir ++ name
  else dir ++ "/" ++ name

/-! Canonical book data (`server.py` lines 22-31). -/

/-- `BOOK_SLUGS` from `server.py`. -/
def BOOK_SLUGS : List String :=
  ["1-ne", "2-ne", "jacob", "enos", "jarom", "omni",
   "w-of-m", "mosiah", "alma", "hel", "3-ne", "4-ne", "morm", "ether", "moro"]

/-- `BOOK_CHAPTERS` from `server.py`, as an association list. -/
def BOOK_CHAPTERS : List (String × Nat) :=
  [("1-ne", 22), ("2-ne", 33), ("jacob", 7), ("enos", 1), ("jarom", 1),
   ("omni", 1), ("w-of-m", 1), ("mosiah", 29), ("alma", 63), ("hel", 16),
   ("3-ne", 30), ("4-ne", 1), ("morm", 9), ("ether", 15), ("moro", 10)]

/-- Chapter count lookup `BOOK_CHAPTERS[slug]` (every slug passed in the code
is a key, so a default of 0 is never observed). -/
def bookChapterCount (slug : String) : Nat :=
  ((BOOK_CHAPTERS.find? (fun p => p.1 == slug)).map (fun p => p.2)).getD 0

/-- One entry of the list `/api/books` serves:
`{"abbr": slug, "name": ..., "chapters": ...}`. -/
structure Book where
  abbr : String
  name : String
  chapters : Nat
deriving DecidableEq

/-- `names.get(slug, slug.upper())` from the fast path of
`_get_books_for_lang`. -/
def namesGet (names : List (String × String)) (slug : String) : String :=
  match names.find? (fun p => p.1 == slug) with
  | some p => p.2
  | none => pyUpper slug

/-- Fast path of `_get_books_for_lang`: build the book list from the
precomputed localized names. -/
def buildBooksFast (names : List (String × String)) : List Book :=
  BOOK_SLUGS.map (fun slug =>
    { abbr := slug, name := namesGet names slug, chapters := bookChapterCount slug })

/-- Fallback path of `_get_books_for_lang`: fetch each title with
`_fetch_book_title`; the first raised exception aborts the loop
(`Except` error). -/
def buildBooksFallback (ft : String → String → Except String String)
    (lang : String) : Except String (List Book) :=
  BOOK_SLUGS.mapM (fun slug =>
    (ft slug lang).map (fun t =>
      { abbr := slug, name := t, chapters := bookChapterCount slug }))

/-- `_BOOKS_CACHE`: a dict from language code to `(at, data)`, kept as an
insertion-ordered association list. -/
abbrev Cache : Type := List (String × Int × List Book)

/-- `_CACHE_TTL = 60 * 60 * 24` (seconds). -/
def _CACHE_TTL : Int := 60 * 60 * 24

/-- `_BOOKS_CACHE.get(lang)`. -/
def cacheLookup (c : Cache) (lang : String) : Option (Int × List Book) :=
  match c with
  | [] => none
  | e :: rest => if e.1 = lang then some e.2 else cacheLookup rest lang

/-- `_BOOKS_CACHE[lang] = {"at": at, "data": d}`: Python dict assignment,
replacing in place or appending. -/
def cacheInsert (c : Cache) (lang : String) (at_ : Int) (d : List Book) : Cache :=
  match c with
  | [] => [(lang, at_, d)]
  | e :: rest =>
      if e.1 = lang then (lang, at_, d) :: rest
      else e :: cacheInsert rest lang at_ d

/-- Cache-miss body of `_get_books_for_lang` (`server.py` lines 219-241):
use the precomputed names when `BOOKS_NAMES.get(lang, {})` is non-empty,
otherwise fetch each title; on success store the fresh entry. -/
def _get_books_compute (bn : String → List (String × String))
    (ft : String → String → Except String String)
    (cache : Cache) (now : Int) (lang : String) :
    Except String (List Book) × Cache :=
  if bn lang = [] then
    match buildBooksFallback ft lang with
    | .ok out => (.ok out, cacheInsert cache lang now out)
    | .error e => (.error e, cache)
  else
    (.ok (buildBooksFast (bn lang)),
     cacheInsert cache lang now (buildBooksFast (bn lang)))

/-- `_get_books_for_lang` (`server.py` lines 213-241): serve the cached data
when `now - hit["at"] < _CACHE_TTL`, otherwise recompute and store. -/
def _get_books_for_lang (bn : String → List (String × String))
    (ft : String → String → Except String String)
    (cache : Cache) (now : Int) (lang : String) :
    Except String (List Book) × Cache :=
  match cacheLookup cache lang with
  | some (at_, d) =>
      if now - at_ < _CACHE_TTL then (.ok d, cache)
      else _get_books_compute bn ft cache now lang
  | none => _get_books_compute bn ft cache now lang

/-- The cache offers nothing servable for a language: either no entry, or an
entry whose timestamp already lies a full TTL (or more) in the past. -/
def cacheStaleOrMiss (cache : Cache) (now : Int) (lang : String) : Prop :=
  cacheLookup cache lang = none ∨
    ∃ at_ d, cacheLookup cache lang = some (at_, d) ∧ _CACHE_TTL ≤ now - at_

/-! User table and helpers around it (`server.py` lines 266-278). -/

/-- One row of the `users` table. -/
structure UserRec where
  id : Int
  email : String
  passwordHash : String
  createdAt : Int
  emailVerifiedAt : Option Int
deriving DecidableEq

/-- The `users` table. -/
abbrev DB : Type := List UserRec

/-- Modelled from werkzeug: `generate_password_hash` is treated as an
injective tagging of the raw password; only its relation to
`check_password_hash` matters to the handlers. -/
def generate_password_hash (raw : String) : String :=
  "pbkdf2:sha256:" ++ raw

/-- Modelled from werkzeug: `check_password_hash(h, raw)` succeeds exactly
when `h` is the hash of `raw`. -/
def check_password_hash (h raw : String) : Bool :=
  h == generate_password_hash raw

/-- `User.query.filter_by(email=email).first()`. -/
def findByEmail (db : DB) (email : String) : Option UserRec :=
  db.find? (fun u => u.email == email)

/-- `User.query.get(uid)`. -/
def findById (db : DB) (uid : Int) : Option UserRec :=
  db.find? (fun u => u.id == uid)

/-- `u.email_verified_at = datetime.utcnow(); db.session.commit()` for the
row with the given id. -/
def setVerified (db : DB) (uid : Int) (now : Int) : DB :=
  db.map (fun u => if u.id == uid then { u with emailVerifiedAt := some now } else u)

/-- `u.set_password(new_pw); db.session.commit()` for the row with the given
id. -/
def setPasswordHash (db : DB) (uid : Int) (h : String) : DB :=
  db.map (fun u => if u.id == uid then { u with passwordHash := h } else u)

/-! Signed tokens (`itsdangerous.URLSafeTimedSerializer` via `_sign` /
`_unsign`). -/

/-- A received token, described by the properties `loads` checks: signature
validity, age in seconds, and the `op` / `uid` fields of its payload
(`uidField = none` models a missing `"uid"` key or a value `int()` rejects). -/
structure SignedToken where
  sigOk : Bool
  age : Nat
  op : Option String
  uidField : Option Int
deriving DecidableEq

/-- Token decoding as performed by `verify_email` / `reset_password`:
`_unsign(token, max_age)` (raising for a bad signature or an age above
`max_age`), the `data.get("op") != expected` check, and `int(data["uid"])`;
every raised `BadSignature` / `SignatureExpired` / `KeyError` / `ValueError`
collapses to `none`. -/
def _unsign_op (t : SignedToken) (expectedOp : String) (maxAge : Nat) : Option Int :=
  if t.sigOk = false then none
  else if maxAge < t.age then none
  else if t.op ≠ some expectedOp then none
  else t.uidField

/-- A token the spec calls invalid for an operation: bad signature, expired
past `maxAge`, wrong operation tag, or malformed payload. -/
def tokenInvalid (t : SignedToken) (expectedOp : String) (maxAge : Nat) : Prop :=
  t.sigOk = false ∨ maxAge < t.age ∨ t.op ≠ some expectedOp ∨ t.uidField = none

/-- Serialized form of `_sign({"uid": uid, "op": op})` as it appears inside a
link (the serializer is abstracted to an injective encoding). -/
def signedTokenFor (uid : Int) (op : String) : String :=
  op ++ "." ++ toString uid

/-- `_abs_url("verify_email", token=...)`. -/
def verifyLinkFor (uid : Int) : String :=
  "/verify?token=" ++ signedTokenFor uid "verify"

/-- `_abs_url("reset_password", token=...)`. -/
def resetLinkFor (uid : Int) : String :=
  "/password/reset?token=" ++ signedTokenFor uid "reset"

/-- `url_for("resend_verification", email=email)`. -/
def resendUrlFor (email : String) : String :=
  "/verify/resend?email=" ++ email

/-! Rendered responses of the page handlers. -/

/-- What a page handler produces: HTTP status, the template variables that
reach the rendered page (`error` / `success` / `info` / `dev_link`), the
session `user_id` the handler sets (if any) and a redirect target (if any). -/
structure Resp where
  status : Nat
  error : Option String
  success : Option String
  info : Option String
  devLink : Option String
  sessionUserId : Option Int
  redirect : Option String
deriving DecidableEq

/-- A plain 200 page with nothing set. -/
def Resp.base : Resp :=
  { status := 200
    error := none
    success := none
    info := none
    devLink := none
    sessionUserId := none
    redirect := none }

/-! Auth handlers (`server.py` lines 403-537).  Each takes the raw form /
query fields as `Option String` (absent field = `none`), the current table,
and the outcome `sent` of `_send_email` together with the
`SHOW_DEV_LINKS` configuration flag where the source consults them. -/

/-- POST `/signup` (`server.py` lines 403-432). -/
def signup (db : DB) (emailArg pwArg : Option String) (nextId : Int)
    (now : Int) (sent showDevLinks : Bool) : Resp × DB :=
  if normEmailField emailArg = "" ∨ pyOr pwArg "" = "" ∨ (pyOr pwArg "").length < 8 then
    ({ Resp.base with
        status := 400
        error := some "Please provide a valid email and a password (min 8 chars)." }, db)
  else if (findByEmail db (normEmailField emailArg)).isSome then
    ({ Resp.base with status := 400, error := some "Email is already registered." }, db)
  else
    ({ Resp.base with
        sessionUserId := some nextId
        devLink := if !sent && showDevLinks then some (verifyLinkFor nextId) else none },
     db ++ [{ id := nextId
              email := normEmailField emailArg
              passwordHash := generate_password_hash (pyOr pwArg "")
              createdAt := now
              emailVerifiedAt := none }])

/-- POST `/login` (`server.py` lines 434-451). -/
def login (db : DB) (emailArg pwArg nextArg : Option String) : Resp :=
  match findByEmail db (normEmailField emailArg) with
  | none => { Resp.base with status := 401, error := some "Invalid email or password." }
  | some u =>
      if check_password_hash u.passwordHash (pyOr pwArg "") = false then
        { Resp.base with status := 401, error := some "Invalid email or password." }
      else if u.emailVerifiedAt = none then
        { Resp.base with
          status := 403
          error := some ("Email not verified. Please check your inbox or  " ++
            resendUrlFor (normEmailField emailArg)) }
      else
        { Resp.base with
          sessionUserId := some u.id
          redirect := some (pyOr nextArg "/") }

/-- GET `/verify` (`server.py` lines 459-476).  `maxAge` is
`SECURITY_TOKEN_MAX_AGE`, `now` the `datetime.utcnow()` written on first
verification. -/
def verify_email (db : DB) (t : SignedToken) (maxAge : Nat) (now : Int) :
    Resp × DB :=
  match _unsign_op t "verify" maxAge with
  | none =>
      ({ Resp.base with
          status := 400
          error := some "Invalid or expired verification link." }, db)
  | some uid =>
      match findById db uid with
      | none => ({ Resp.base with status := 404, error := some "Account not found." }, db)
      | some u =>
          ({ Resp.base with
              success := some "Email verified!"
              sessionUserId := some u.id },
           if u.emailVerifiedAt = none then setVerified db uid now else db)

/-- Email address `/verify/resend` acts on: the `email` query argument, else
the current session user's email, normalized. -/
def resendEmail (emailArg : Option String) (gUser : Option UserRec) : String :=
  pyLower (pyStrip (pyOr emailArg (match gUser with | some u => u.email | none => "")))

/-- GET `/verify/resend` (`server.py` lines 478-496).  The middle `Bool` of
the result records whether `_send_email` was invoked. -/
def resend_verification (db : DB) (emailArg : Option String) (gUser : Option UserRec)
    (sent showDevLinks : Bool) : Resp × Bool × DB :=
  if resendEmail emailArg gUser = "" then
    ({ Resp.base with status := 400, error := some "No email provided." }, false, db)
  else
    match findByEmail db (resendEmail emailArg gUser) with
    | none => ({ Resp.base with status := 404, error := some "Account not found." }, false, db)
    | some u =>
        if u.emailVerifiedAt ≠ none then
          ({ Resp.base with success := some "Email already verified." }, false, db)
        else
          ({ Resp.base with
              success := some ("Verification link sent to " ++ u.email ++ ".")
              devLink := if !sent && showDevLinks then some (verifyLinkFor u.id) else none },
           true, db)

/-- The generic message of `/password/forgot`. -/
def forgotInfoMsg : String := "If that email exists, we sent a reset link."

/-- POST `/password/forgot` (`server.py` lines 498-513).  No database write;
`sent` is the `_send_email` outcome in the branch where the user exists. -/
def forgot_password (db : DB) (emailArg : Option String)
    (showDevLinks sent : Bool) : Resp :=
  if normEmailField emailArg = "" then
    { Resp.base with info := some forgotInfoMsg }
  else
    match findByEmail db (normEmailField emailArg) with
    | some u =>
        { Resp.base with
          info := some forgotInfoMsg
          devLink := if !sent && showDevLinks then some (resetLinkFor u.id) else none }
    | none => { Resp.base with info := some forgotInfoMsg }

/-- POST `/password/reset` (`server.py` lines 515-537). -/
def reset_password (db : DB) (t : SignedToken) (newPw : String) (maxAge : Nat) :
    Resp × DB :=
  if newPw.length < 8 then
    ({ Resp.base with
        status := 400
        error := some "Password must be at least 8 characters." }, db)
  else
    match _unsign_op t "reset" maxAge with
    | none =>
        ({ Resp.base with
            status := 400
            error := some "Invalid or expired reset link." }, db)
    | some uid =>
        match findById db uid with
        | none => ({ Resp.base with status := 404, error := some "Account not found." }, db)
        | some u =>
            ({ Resp.base with
                sessionUserId := some u.id
                redirect := some "/" },
             setPasswordHash db uid (generate_password_hash newPw))

/-! JSON API handlers. -/

/-- JSON bodies the three API routes produce. -/
inductive Json where
  | errorObj (msg : String)
  | booksObj (lang : String) (books : List Book)
  | chapterObj (verses : List String) (book chapter lang : String)
  | introObj (subtitle introduction : String)
deriving DecidableEq

/-- An API response: status and JSON body. -/
structure ApiResp where
  status : Nat
  body : Json
deriving DecidableEq

/-- GET `/api/books` (`server.py` lines 383-390): any exception out of
`_get_books_for_lang` becomes a 500 error object. -/
def api_books (langArg : Option String) (bn : String → List (String × String))
    (ft : String → String → Except String String) (cache : Cache) (now : Int) :
    ApiResp × Cache :=
  match _get_books_for_lang bn ft cache now (apiBooksLang langArg) with
  | (.ok data, c2) => ({ status := 200, body := .booksObj (apiBooksLang langArg) data }, c2)
  | (.error e, c2) =>
      ({ status := 500
         body := .errorObj ("Failed to load books for " ++ apiBooksLang langArg ++ ": " ++ e) },
       c2)

/-- GET `/api/chapter` (`server.py` lines 560-603).  `fetch` stands for the
guarded upstream GET plus verse extraction; a raised `RequestException`
is its `error` case and yields the 502 body. -/
def api_chapter (bookArg chapterArg langArg : Option String)
    (fetch : Except String (List String)) : ApiResp :=
  if bookArg.getD "" = "" ∨ chapterArg.getD "" = "" then
    { status := 400, body := .errorObj "Missing \x27book\x27 or \x27chapter\x27 parameter" }
  else
    match fetch with
    | .error e => { status := 502, body := .errorObj ("Upstream fetch failed: " ++ e) }
    | .ok verses =>
        { status := 200
          body := .chapterObj verses (bookArg.getD "") (chapterArg.getD "") (langArg.getD "por") }

/-- Book parameter normalization of `/api/intro`:
`request.args.get("book", "").strip().lower()`. -/
def introBookNorm (bookArg : Option String) : String :=
  pyLower (pyStrip (bookArg.getD ""))

/-- GET `/api/intro` (`server.py` lines 605-620).  `chapterArg` is the
`type=int` conversion (`none` when absent or unparsable); `fetch` stands for
`fetch_1ne1_extras`, whose raised exceptions are its `error` case.  The
second component records whether that fetch was invoked. -/
def api_intro (bookArg : Option String) (chapterArg : Option Int)
    (fetch : Except String (String × String)) : ApiResp × Bool :=
  if introBookNorm bookArg ≠ "1-ne" ∨ chapterArg ≠ some 1 then
    ({ status := 200, body := .introObj "" "" }, false)
  else
    match fetch with
    | .ok d => ({ status := 200, body := .introObj d.1 d.2 }, true)
    | .error _ => ({ status := 200, body := .introObj "" "" }, true)

/-! Concrete fixtures used by witnesses. -/

/-- A user created with password `password123`, not yet verified. -/
def demoUser : UserRec :=
  { id := 1
    email := "a@b.c"
    passwordHash := generate_password_hash "password123"
    createdAt := 0
    emailVerifiedAt := none }

/-- A user whose email has already been verified (timestamp 42). -/
def demoVerifiedUser : UserRec :=
  { id := 2
    email := "v@b.c"
    passwordHash := generate_password_hash "password123"
    createdAt := 0
    emailVerifiedAt := some 42 }

/-- A concrete book entry. -/
def demoBook : Book := { abbr := "1-ne", name := "First Nephi", chapters := 22 }

/-! Helper lemmas shared by the claim theorems. -/

/-- A member a predicate rejects survives `dropWhile` by that predicate. -/
theorem mem_dropWhile_of_mem {p : Char → Bool} {c : Char} (hpc : p c = false) :
    ∀ {l : List Char}, c ∈ l → c ∈ l.dropWhile p := by
  intro l hl
  induction l with
  | nil => cases hl
  | cons x xs ih =>
    rcases List.mem_cons.1 hl with rfl | hxs
    · simp [List.dropWhile_cons, hpc]
    · cases hx : p x with
      | true => simpa [List.dropWhile_cons, hx] using ih hxs
      | false => simp [List.dropWhile_cons, hx, List.mem_cons, hxs]

/-- A non-whitespace member of a character list survives `stripList`. -/
theorem mem_stripList {c : Char} {l : List Char} (h : c ∈ l) (hs : isPySpace c = false) :
    c ∈ stripList l := by
  unfold stripList
  rw [List.mem_reverse]
  exact mem_dropWhile_of_mem hs (List.mem_reverse.2 (mem_dropWhile_of_mem hs h))

/-- Looking up a language right after storing it yields the stored pair. -/
theorem cacheLookup_cacheInsert (c : Cache) (lang : String) (at_ : Int) (d : List Book) :
    cacheLookup (cacheInsert c lang at_ d) lang = some (at_, d) := by
  induction c with
  | nil => simp [cacheInsert, cacheLookup]
  | cons e rest ih =>
    by_cases he : e.1 = lang
    · simp [cacheInsert, he, cacheLookup]
    · simp [cacheInsert, he, cacheLookup, ih]

/-- Every way a token can be invalid makes `_unsign_op` reject it. -/
theorem unsignOp_none_of_invalid (t : SignedToken) (op : String) (maxAge : Nat)
    (h : tokenInvalid t op maxAge) : _unsign_op t op maxAge = none := by
  unfold _unsign_op
  rcases h with h | h | h | h <;> split_ifs <;> simp_all

/-- Whenever dev links are off or the mail went out, POST /password/forgot
renders the one generic page, independent of the table. -/
theorem forgot_password_generic (db : DB) (emailArg : Option String) (sdl sent : Bool)
    (h : sdl = false ∨ sent = true) :
    forgot_password db emailArg sdl sent = { Resp.base with info := some forgotInfoMsg } := by
  have hdl : (!sent && sdl) = false := by
    rcases h with rfl | rfl <;> simp
  unfold forgot_password
  split
  · rfl
  · split
    · simp [hdl, Resp.base]
    · rfl

/-! Claim theorems. -/

/-- C1 (counterexample): with SHOW_DEV_LINKS enabled and the reset email not
sent (the development default), the rendered response of POST
/password/forgot differs between a table containing the submitted email and
one without it — the existing-email run carries a dev reset link — so the
claim that the two runs always produce the same rendered response is false. -/
theorem C1_counterexample :
    forgot_password [demoUser] (some "a@b.c") true false ≠
      forgot_password [] (some "a@b.c") true false := by decide

/-- C1 (amended): provided dev links are disabled or the reset email was
actually sent, the rendered response of POST /password/forgot does not
depend on whether the submitted email exists in the users table. -/
theorem C1_theorem (db1 db2 : DB) (emailArg : Option String) (sdl sent1 sent2 : Bool)
    (h1 : sdl = false ∨ sent1 = true) (h2 : sdl = false ∨ sent2 = true) :
    forgot_password db1 emailArg sdl sent1 = forgot_password db2 emailArg sdl sent2 := by
  rw [forgot_password_generic db1 emailArg sdl sent1 h1,
    forgot_password_generic db2 emailArg sdl sent2 h2]

/-- C1 (witness): concrete instantiation of the amended statement with dev
links disabled, one table containing the email and one empty. -/
theorem C1_witness :
    forgot_password [demoUser] (some "a@b.c") false false =
      forgot_password [] (some "a@b.c") false false :=
  C1_theorem [demoUser] [] (some "a@b.c") false false false (Or.inl rfl) (Or.inl rfl)

/-- C2: a token invalid for the verification operation (bad signature,
expired past SECURITY_TOKEN_MAX_AGE, wrong op tag, malformed payload) makes
GET /verify answer 400 with the users table unchanged, and one invalid for
the reset operation makes POST /password/reset do the same, whatever
password accompanies it. -/
theorem C2_theorem (db : DB) (t : SignedToken) (maxAge : Nat) (now : Int) (newPw : String) :
    (tokenInvalid t "verify" maxAge →
      (verify_email db t maxAge now).1.status = 400 ∧
        (verify_email db t maxAge now).2 = db) ∧
    (tokenInvalid t "reset" maxAge →
      (reset_password db t newPw maxAge).1.status = 400 ∧
        (reset_password db t newPw maxAge).2 = db) := by
  constructor
  · intro h
    simp [verify_email, unsignOp_none_of_invalid t "verify" maxAge h]
  · intro h
    by_cases hlen : newPw.length < 8
    · simp [reset_password, hlen]
    · simp [reset_password, hlen, unsignOp_none_of_invalid t "reset" maxAge h]

/-- C2 (witness): a concrete badly-signed token is rejected with 400 by both
operations, leaving a one-row table unchanged. -/
theorem C2_witness :
    ((verify_email [demoUser] ⟨false, 0, some "verify", some 1⟩ 3600 5).1.status = 400 ∧
      (verify_email [demoUser] ⟨false, 0, some "verify", some 1⟩ 3600 5).2 = [demoUser]) ∧
    ((reset_password [demoUser] ⟨false, 0, some "reset", some 1⟩ "newpassword" 3600).1.status = 400 ∧
      (reset_password [demoUser] ⟨false, 0, some "reset", some 1⟩ "newpassword" 3600).2 = [demoUser]) :=
  ⟨(C2_theorem [demoUser] ⟨false, 0, some "verify", some 1⟩ 3600 5 "newpassword").1 (Or.inl rfl),
   (C2_theorem [demoUser] ⟨false, 0, some "reset", some 1⟩ 3600 5 "newpassword").2 (Or.inl rfl)⟩

/-- C3: POST /signup whose password is under 8 characters, or whose
normalized email is empty (which covers an empty submitted email), returns
400 and adds no row to the users table. -/
theorem C3_theorem (db : DB) (emailArg pwArg : Option String) (nextId : Int)
    (now : Int) (sent sdl : Bool)
    (h : (pyOr pwArg "").length < 8 ∨ normEmailField emailArg = "") :
    (signup db emailArg pwArg nextId now sent sdl).1.status = 400 ∧
    (signup db emailArg pwArg nextId now sent sdl).2 = db := by
  have hc : normEmailField emailArg = "" ∨ pyOr pwArg "" = "" ∨
      (pyOr pwArg "").length < 8 := by tauto
  unfold signup
  rw [if_pos hc]
  exact ⟨rfl, rfl⟩

/-- C3 (witness): a five-character password is refused on an empty table,
which stays empty. -/
theorem C3_witness :
    (signup [] (some "a@b.c") (some "short") 1 0 false false).1.status = 400 ∧
    (signup [] (some "a@b.c") (some "short") 1 0 false false).2 = [] :=
  C3_theorem [] (some "a@b.c") (some "short") 1 0 false false (Or.inl (by decide))

/-- C4: GET /verify/resend naming an already-verified user renders the
success message, never invokes the mailer, and leaves the users table
unchanged. -/
theorem C4_theorem (db : DB) (emailArg : Option String) (gUser : Option UserRec)
    (sent sdl : Bool) (u : UserRec)
    (hne : resendEmail emailArg gUser ≠ "")
    (hfind : findByEmail db (resendEmail emailArg gUser) = some u)
    (hver : u.emailVerifiedAt ≠ none) :
    (resend_verification db emailArg gUser sent sdl).1.success =
        some "Email already verified." ∧
    (resend_verification db emailArg gUser sent sdl).1.status = 200 ∧
    (resend_verification db emailArg gUser sent sdl).2.1 = false ∧
    (resend_verification db emailArg gUser sent sdl).2.2 = db := by
  simp [resend_verification, hne, hfind, hver, Resp.base]

/-- C4 (witness): resending for the concrete verified user succeeds without
mailing and without touching the table. -/
theorem C4_witness :
    (resend_verification [demoVerifiedUser] (some "v@b.c") none false false).1.success =
        some "Email already verified." ∧
    (resend_verification [demoVerifiedUser] (some "v@b.c") none false false).1.status = 200 ∧
    (resend_verification [demoVerifiedUser] (some "v@b.c") none false false).2.1 = false ∧
    (resend_verification [demoVerifiedUser] (some "v@b.c") none false false).2.2 =
        [demoVerifiedUser] :=
  C4_theorem [demoVerifiedUser] (some "v@b.c") none false false demoVerifiedUser
    (by decide) (by decide) (by decide)

/-- C5: upstream failures degrade instead of propagating: with both
parameters present, a failed fetch makes /api/chapter answer a 502 error
object; a failed fetch makes /api/intro answer the empty
subtitle/introduction object; and a failed lookup makes /api/books answer a
500 error object. -/
theorem C5_theorem :
    (∀ bookArg chapterArg langArg e, Option.getD bookArg "" ≠ "" →
      Option.getD chapterArg "" ≠ "" →
      api_chapter bookArg chapterArg langArg (.error e) =
        { status := 502, body := .errorObj ("Upstream fetch failed: " ++ e) }) ∧
    (∀ bookArg chapterArg e,
      (api_intro bookArg chapterArg (.error e)).1 =
        { status := 200, body := .introObj "" "" }) ∧
    (∀ langArg bn ft cache now e c2,
      _get_books_for_lang bn ft cache now (apiBooksLang langArg) = (.error e, c2) →
      api_books langArg bn ft cache now =
        ({ status := 500
           body := .errorObj
             ("Failed to load books for " ++ apiBooksLang langArg ++ ": " ++ e) }, c2)) := by
  refine ⟨?_, ?_, ?_⟩
  · intro bookArg chapterArg langArg e hb hc
    unfold api_chapter
    rw [if_neg (by tauto)]
  · intro bookArg chapterArg e
    unfold api_intro
    split
    · rfl
    · rfl
  · intro langArg bn ft cache now e c2 h
    unfold api_books
    rw [h]

/-- C5 (witness): concrete failing fetches for each of the three routes. -/
theorem C5_witness :
    api_chapter (some "alma") (some "5") none (.error "boom") =
      { status := 502, body := .errorObj ("Upstream fetch failed: " ++ "boom") } ∧
    (api_intro (some "1-ne") (some 1) (.error "boom")).1 =
      { status := 200, body := .introObj "" "" } ∧
    api_books (some "zz") (fun _ => []) (fun _ _ => .error "down") [] 0 =
      ({ status := 500
         body := .errorObj
           ("Failed to load books for " ++ apiBooksLang (some "zz") ++ ": " ++ "down") }, []) :=
  ⟨C5_theorem.1 (some "alma") (some "5") none "boom" (by decide) (by decide),
   C5_theorem.2.1 (some "1-ne") (some 1) "boom",
   C5_theorem.2.2 (some "zz") (fun _ => []) (fun _ _ => .error "down") [] 0 "down" [] (by rfl)⟩

/-- C6 (counterexample): the claim that every received language code is
sanitized into a safe file-path component is refuted: the only
transformation applied (server.py line 385) is lower-casing plus whitespace
stripping, which leaves the traversal code intact, and the offline tool
joins such a code straight into a path that climbs out of its output
directory. -/
theorem C6_counterexample :
    langNormalize " ../Evil" = "../evil" ∧
    '/' ∈ (langNormalize " ../Evil").data ∧
    osPathJoin "all_books" (toolLangFilename "../evil") = "all_books/../evil.json" :=
  ⟨by decide, by decide, by decide⟩

/-- C6 (amended): language codes are only lower-cased and stripped of
surrounding whitespace, which performs no path sanitization — any slash in
the received code survives into the value the handler uses (the server uses
that value solely as a dictionary/cache key, never as a file path; the
offline tool interpolates codes from its local languages.json into
filenames unsanitized). -/
theorem C6_theorem (s : String) (h : '/' ∈ s.data) : '/' ∈ (langNormalize s).data := by
  have h2 : '/' ∈ s.data.map pyLowerChar :=
    List.mem_map.2 ⟨'/', h, by decide⟩
  show '/' ∈ stripList ((⟨s.data.map pyLowerChar⟩ : String)).data
  exact mem_stripList h2 (by decide)

/-- C6 (witness): the slash of a concrete traversal code survives
normalization. -/
theorem C6_witness : '/' ∈ (langNormalize "../x").data :=
  C6_theorem "../x" (by decide)

/-- C7: the books lookup serves the cached data exactly when the stored
timestamp is within the 24-hour TTL of now (first part); when the entry is
stale or missing it recomputes the list — from the precomputed names, or by
fetching when those are absent and the fetches succeed — stores it under the
current timestamp and returns it (second and third part), so a stale entry
is never served. -/
theorem C7_theorem (bn : String → List (String × String))
    (ft : String → String → Except String String)
    (cache : Cache) (now : Int) (lang : String) :
    (∀ at_ d, cacheLookup cache lang = some (at_, d) → now - at_ < _CACHE_TTL →
      _get_books_for_lang bn ft cache now lang = (.ok d, cache)) ∧
    (cacheStaleOrMiss cache now lang → bn lang ≠ [] →
      _get_books_for_lang bn ft cache now lang =
        (.ok (buildBooksFast (bn lang)),
          cacheInsert cache lang now (buildBooksFast (bn lang))) ∧
      cacheLookup (_get_books_for_lang bn ft cache now lang).2 lang =
        some (now, buildBooksFast (bn lang))) ∧
    (∀ out, cacheStaleOrMiss cache now lang → bn lang = [] →
      buildBooksFallback ft lang = .ok out →
      _get_books_for_lang bn ft cache now lang = (.ok out, cacheInsert cache lang now out) ∧
      cacheLookup (_get_books_for_lang bn ft cache now lang).2 lang = some (now, out)) := by
  refine ⟨?_, ?_, ?_⟩
  · intro at_ d hlook hfresh
    simp [_get_books_for_lang, hlook, hfresh]
  · intro hsm hbn
    have hres : _get_books_for_lang bn ft cache now lang =
        (.ok (buildBooksFast (bn lang)),
          cacheInsert cache lang now (buildBooksFast (bn lang))) := by
      rcases hsm with hnone | ⟨a, d, hsome, hle⟩
      · simp [_get_books_for_lang, hnone, _get_books_compute, hbn]
      · simp [_get_books_for_lang, hsome, not_lt.2 hle, _get_books_compute, hbn]
    exact ⟨hres, by rw [hres]; exact cacheLookup_cacheInsert cache lang now _⟩
  · intro out hsm hbn hfb
    have hres : _get_books_for_lang bn ft cache now lang =
        (.ok out, cacheInsert cache lang now out) := by
      rcases hsm with hnone | ⟨a, d, hsome, hle⟩
      · simp [_get_books_for_lang, hnone, _get_books_compute, hbn, hfb]
      · simp [_get_books_for_lang, hsome, not_lt.2 hle, _get_books_compute, hbn, hfb]
    exact ⟨hres, by rw [hres]; exact cacheLookup_cacheInsert cache lang now _⟩

/-- C7 (witness): a fresh entry (age 100 s) is served untouched, and a stale
entry (age well past 24 h) is replaced by a freshly computed list stored at
the current time. -/
theorem C7_witness :
    _get_books_for_lang (fun l => if l = "eng" then [("1-ne", "First Nephi")] else [])
        (fun _ _ => .error "down") [("eng", 100, [demoBook])] 200 "eng" =
      (.ok [demoBook], [("eng", 100, [demoBook])]) ∧
    _get_books_for_lang (fun l => if l = "eng" then [("1-ne", "First Nephi")] else [])
        (fun _ _ => .error "down") [("eng", 0, [demoBook])] 1000000 "eng" =
      (.ok (buildBooksFast [("1-ne", "First Nephi")]),
        [("eng", 1000000, buildBooksFast [("1-ne", "First Nephi")])]) :=
  ⟨(C7_theorem _ _ [("eng", 100, [demoBook])] 200 "eng").1 100 [demoBook]
      (by decide) (by decide),
   ((C7_theorem (fun l => if l = "eng" then [("1-ne", "First Nephi")] else [])
        (fun _ _ => .error "down") [("eng", 0, [demoBook])] 1000000 "eng").2.1
      (Or.inr ⟨0, [demoBook], by decide, by decide⟩) (by decide)).1⟩

/-- C8 (counterexample): the claim as stated — book parameter lowercased,
nothing said about stripping — is refuted: for book " 1-NE" the lowercased
parameter is not "1-ne", yet the handler (which also strips it) invokes the
upstream fetch and returns its data instead of the empty object. -/
theorem C8_counterexample :
    pyLower " 1-NE" ≠ "1-ne" ∧
    api_intro (some " 1-NE") (some 1) (.ok ("s", "i")) =
      ({ status := 200, body := .introObj "s" "i" }, true) :=
  ⟨by decide, by decide⟩

/-- C8 (amended): whenever the stripped-and-lowercased book parameter is not
"1-ne" or the chapter parameter is not 1, /api/intro returns the empty
subtitle/introduction object without invoking the upstream fetch. -/
theorem C8_theorem (bookArg : Option String) (chapterArg : Option Int)
    (fetch : Except String (String × String))
    (h : introBookNorm bookArg ≠ "1-ne" ∨ chapterArg ≠ some 1) :
    api_intro bookArg chapterArg fetch =
      ({ status := 200, body := .introObj "" "" }, false) := by
  unfold api_intro
  rw [if_pos h]

/-- C8 (witness): a request for another book gets the empty object with the
fetch never invoked. -/
theorem C8_witness :
    api_intro (some "2-ne") (some 1) (.ok ("s", "i")) =
      ({ status := 200, body := .introObj "" "" }, false) :=
  C8_theorem (some "2-ne") (some 1) (.ok ("s", "i")) (Or.inl (by decide))

/-- C9: email verification is idempotent on the timestamp: a valid
verification token for a user whose email_verified_at is already set leaves
the users table — and hence that timestamp — unchanged. -/
theorem C9_theorem (db : DB) (t : SignedToken) (maxAge : Nat) (now : Int)
    (uid : Int) (u : UserRec) (ts : Int)
    (hu : _unsign_op t "verify" maxAge = some uid)
    (hf : findById db uid = some u)
    (hv : u.emailVerifiedAt = some ts) :
    (verify_email db t maxAge now).2 = db := by
  simp [verify_email, hu, hf, hv]

/-- C9 (witness): re-verifying the concrete already-verified user (timestamp
42) at a later time leaves the table as it was. -/
theorem C9_witness :
    (verify_email [demoVerifiedUser] ⟨true, 0, some "verify", some 2⟩ 3600 999).2 =
      [demoVerifiedUser] :=
  C9_theorem [demoVerifiedUser] ⟨true, 0, some "verify", some 2⟩ 3600 999 2
    demoVerifiedUser 42 (by decide) (by decide) (by decide)

/-- C10: POST /login with a correct email/password pair for an unverified
account returns 403 and sets no session user id. -/
theorem C10_theorem (db : DB) (emailArg pwArg nextArg : Option String) (u : UserRec)
    (hf : findByEmail db (normEmailField emailArg) = some u)
    (hpw : check_password_hash u.passwordHash (pyOr pwArg "") = true)
    (hver : u.emailVerifiedAt = none) :
    (login db emailArg pwArg nextArg).status = 403 ∧
    (login db emailArg pwArg nextArg).sessionUserId = none := by
  simp [login, hf, hpw, hver, Resp.base]

/-- C10 (witness): the concrete unverified user with the correct password is
turned away with 403 and no session. -/
theorem C10_witness :
    (login [demoUser] (some "a@b.c") (some "password123") none).status = 403 ∧
    (login [demoUser] (some "a@b.c") (some "password123") none).sessionUserId = none :=
  C10_theorem [demoUser] (some "a@b.c") (some "password123") none demoUser
    (by decide) (by decide) (by decide)

end ParallelScriptures
